import Mathlib

/-!
A shallow embedding of the flow-tracking core (`src/flow.c`) and the
configuration subsystem (`src/conf.c`) of the repository, together with
theorems settling the frozen claims about them.

Conventions:
* C machine integers are modelled by `Nat`/`Int`; where overflow matters the
  reduction `% 2 ^ w` is written explicitly.
* C functions that mutate through pointers are modelled as pure functions
  returning the updated values; `NULL` pointers are `Option.none`.
* A few leaf helpers that `flow.c`/`conf.c` call live in repository files that
  are not part of this excerpt (`flow-queue.c`, `util-byte.c`, `util-hash.c`,
  headers with macro definitions).  Each such helper is modelled in a
  definition whose doc comment names what is missing; everything else is a
  direct translation of the C in `src/`.
-/

namespace Suricata

/-! ## Constants

Protocol numbers are the standard IANA/POSIX values that `IPPROTO_*` expand
to on every platform the source supports. -/

def IPPROTO_ICMP : Nat := 1

def IPPROTO_TCP : Nat := 6

def IPPROTO_UDP : Nat := 17

def IPPROTO_ICMPV6 : Nat := 58

def IPPROTO_SCTP : Nat := 132

/-- Return value of `FlowGetPacketDirection` documented in `flow.c`:
`\retval 0 to_server`. -/
def TOSERVER : Nat := 0

/-- Return value of `FlowGetPacketDirection` documented in `flow.c`:
`\retval 1 to_client`. -/
def TOCLIENT : Nat := 1

/-- Modelled from the spec: the flow flag bits of `flow.h` (not in this
repository's excerpt).  The claims depend only on the flags being distinct
single bits of the `flags` bitset. -/
def FLOW_TO_SRC_SEEN : Nat := 1

/-- Flow flag bit: a packet towards the destination has been seen. -/
def FLOW_TO_DST_SEEN : Nat := 2

/-- Flow flag bit set by `FlowSetIPOnlyFlag` for the to-server direction. -/
def FLOW_TOSERVER_IPONLY_SET : Nat := 4

/-- Flow flag bit set by `FlowSetIPOnlyFlag` for the to-client direction. -/
def FLOW_TOCLIENT_IPONLY_SET : Nat := 8

/-- Flow flag bit: detection must not inspect packets of this flow. -/
def FLOW_NOPACKET_INSPECTION : Nat := 16

/-- Flow flag bit: detection must not inspect payloads of this flow. -/
def FLOW_NOPAYLOAD_INSPECTION : Nat := 32

/-- Modelled from the spec: the packet `flowflags` bits of `flow.h` (not in
this repository's excerpt); distinct single bits. -/
def FLOW_PKT_TOSERVER : Nat := 1

/-- Packet flowflags bit: the packet goes to the client. -/
def FLOW_PKT_TOCLIENT : Nat := 2

/-- Packet flowflags bit: both directions of the flow have been seen. -/
def FLOW_PKT_ESTABLISHED : Nat := 4

/-- Modelled from the spec: packet `flags` bit `PKT_HAS_FLOW` of `decode.h`
(not in this repository's excerpt). -/
def PKT_HAS_FLOW : Nat := 256

/-- Packet flags bit set by `DecodeSetNoPacketInspectionFlag`. -/
def PKT_NOPACKET_INSPECTION : Nat := 512

/-- Packet flags bit set by `DecodeSetNoPayloadInspectionFlag`. -/
def PKT_NOPAYLOAD_INSPECTION : Nat := 1024

/-! ## Data model: packets and flows

Only the fields `flow.c` reads or writes are modelled.  Addresses are
modelled as `Nat` because the `CMP_ADDR` macro of `flow.h` is plain equality
of the address words; ports likewise (`CMP_PORT(p1,p2)` is `p1 == p2`). -/

/-- The fields of `Packet` (`decode.h`) that `flow.c` reads or writes.
`is_icmpv4` models the `PKT_IS_ICMPV4` macro (the packet carries a decoded
ICMPv4 header) and `icmpv4_is_error` the `ICMPV4_IS_ERROR_MSG` macro (its
type is one of the ICMPv4 error types); both macros read the decoded packet
only, so they are carried as fields here. -/
structure Packet where
  proto : Nat
  src : Nat
  dst : Nat
  sp : Nat
  dp : Nat
  ts_sec : Int
  is_icmpv4 : Bool
  icmpv4_is_error : Bool
  flowflags : Nat
  flags : Nat
  deriving Repr, DecidableEq

/-- The fields of `Flow` (`flow.h`) that the embedded functions touch.
`use_cnt` is declared `unsigned short` in `flow.h`, hence 16-bit wrapping
arithmetic below. -/
structure Flow where
  proto : Nat
  src : Nat
  dst : Nat
  sp : Nat
  dp : Nat
  flags : Nat
  lastts_sec : Int
  use_cnt : Nat
  deriving Repr, DecidableEq

/-- A packet together with its `flow` pointer field (`p->flow`), split from
`Packet` so that `Packet` needs no reference to `Flow`; `none` models a
`NULL` pointer. -/
structure PacketWithFlow where
  pkt : Packet
  flow : Option Flow
  deriving Repr, DecidableEq

/-- The `CMP_PORT` macro of `flow.h`: equality of the two port values. -/
def CMP_PORT (p1 p2 : Nat) : Bool := p1 == p2

/-- The `CMP_ADDR` macro of `flow.h`: equality of the two addresses (in the
source, word-wise equality of the four address words). -/
def CMP_ADDR (a1 a2 : Nat) : Bool := a1 == a2

/-- The `PKT_IS_ICMPV4` macro of `decode.h`: the packet has a decoded ICMPv4
header. -/
def PKT_IS_ICMPV4 (p : Packet) : Bool := p.is_icmpv4

/-- The `ICMPV4_IS_ERROR_MSG` macro of `decode-icmpv4.h`: the packet's ICMPv4
type is one of the error-message types. -/
def ICMPV4_IS_ERROR_MSG (p : Packet) : Bool := p.icmpv4_is_error

/-! ## `FlowGetPacketDirection`, `FlowUpdateSeenFlag`, `FlowHandlePacket`
(`flow.c` lines 207-317) -/

/-- Direct translation of `FlowGetPacketDirection` (`flow.c` 207-234). -/
def FlowGetPacketDirection (f : Flow) (p : Packet) : Nat :=
  if p.proto = IPPROTO_TCP ∨ p.proto = IPPROTO_UDP ∨ p.proto = IPPROTO_SCTP then
    if ¬ (CMP_PORT p.sp p.dp) then
      if CMP_PORT f.sp p.sp then TOSERVER else TOCLIENT
    else
      if CMP_ADDR f.src p.src then TOSERVER else TOCLIENT
  else if p.proto = IPPROTO_ICMP ∨ p.proto = IPPROTO_ICMPV6 then
    if CMP_ADDR f.src p.src then TOSERVER else TOCLIENT
  else
    TOSERVER

/-- Direct translation of `FlowUpdateSeenFlag` (`flow.c` 244-253). -/
def FlowUpdateSeenFlag (p : Packet) : Nat :=
  if PKT_IS_ICMPV4 p then
    if ICMPV4_IS_ERROR_MSG p then 0 else 1
  else 1

/-- The `DecodeSetNoPacketInspectionFlag` macro of `decode.h`: set the
`PKT_NOPACKET_INSPECTION` bit of the packet's flags. -/
def DecodeSetNoPacketInspectionFlag (p : Packet) : Packet :=
  { p with flags := p.flags ||| PKT_NOPACKET_INSPECTION }

/-- The `DecodeSetNoPayloadInspectionFlag` macro of `decode.h`: set the
`PKT_NOPAYLOAD_INSPECTION` bit of the packet's flags. -/
def DecodeSetNoPayloadInspectionFlag (p : Packet) : Packet :=
  { p with flags := p.flags ||| PKT_NOPAYLOAD_INSPECTION }

/-- The body of `FlowHandlePacket` (`flow.c` 262-317) after the `NULL` check
on the looked-up flow: updates the flow's last-seen timestamp and seen flags,
the packet's direction / established flags, propagates the no-inspection
flags; the caller attaches the flow to the packet's `flow` field. -/
def FlowHandlePacketSome (f0 : Flow) (p : Packet) : Flow × Packet :=
  let f1 : Flow := { f0 with lastts_sec := p.ts_sec }
  let f2 : Flow :=
    if FlowGetPacketDirection f1 p = TOSERVER then
      if FlowUpdateSeenFlag p = 1 then
        { f1 with flags := f1.flags ||| FLOW_TO_DST_SEEN }
      else f1
    else
      if FlowUpdateSeenFlag p = 1 then
        { f1 with flags := f1.flags ||| FLOW_TO_SRC_SEEN }
      else f1
  let p1 : Packet :=
    if FlowGetPacketDirection f1 p = TOSERVER then
      { p with flowflags := p.flowflags ||| FLOW_PKT_TOSERVER }
    else
      { p with flowflags := p.flowflags ||| FLOW_PKT_TOCLIENT }
  let p2 : Packet :=
    if f2.flags &&& FLOW_TO_DST_SEEN ≠ 0 ∧ f2.flags &&& FLOW_TO_SRC_SEEN ≠ 0 then
      { p1 with flowflags := p1.flowflags ||| FLOW_PKT_ESTABLISHED }
    else p1
  let p3 : Packet :=
    if f2.flags &&& FLOW_NOPACKET_INSPECTION ≠ 0 then
      DecodeSetNoPacketInspectionFlag p2
    else p2
  let p4 : Packet :=
    if f2.flags &&& FLOW_NOPAYLOAD_INSPECTION ≠ 0 then
      DecodeSetNoPayloadInspectionFlag p3
    else p3
  (f2, { p4 with flags := p4.flags ||| PKT_HAS_FLOW })

/-- `FlowHandlePacket` (`flow.c` 262-317): the looked-up flow
(`FlowGetFlowFromHash(p)`) is passed in as `lookup`; `none` models the
`NULL` return on flow-memory exhaustion, at which the function returns at
once.  On a non-null flow the updated flow is also attached to the packet
(`p->flow = f; p->flags |= PKT_HAS_FLOW`). -/
def FlowHandlePacket (lookup : Option Flow) (p : PacketWithFlow) :
    Option Flow × PacketWithFlow :=
  match lookup with
  | none => (none, p)
  | some f =>
    let fp := FlowHandlePacketSome f p.pkt
    (some fp.1, { pkt := fp.2, flow := some fp.1 })

/-! ## `FlowIncrUsecnt` / `FlowDecrUsecnt` (`flow.c` lines 180-200) -/

/-- Width of the `use_cnt` counter: `flow.h` declares it
`SC_ATOMIC_DECLARE(unsigned short, use_cnt)`, a 16-bit unsigned. -/
def USE_CNT_MOD : Nat := 65536

/-- Direct translation of `FlowIncrUsecnt` (`flow.c` 180-187): `NULL` is left
alone; otherwise `SC_ATOMIC_ADD(f->use_cnt, 1)` on the 16-bit counter. -/
def FlowIncrUsecnt (f : Option Flow) : Option Flow :=
  match f with
  | none => none
  | some f => some { f with use_cnt := (f.use_cnt + 1) % USE_CNT_MOD }

/-- Direct translation of `FlowDecrUsecnt` (`flow.c` 193-200): `NULL` is left
alone; otherwise `SC_ATOMIC_SUB(f->use_cnt, 1)` on the 16-bit counter
(subtracting one modulo `2 ^ 16`). -/
def FlowDecrUsecnt (f : Option Flow) : Option Flow :=
  match f with
  | none => none
  | some f => some { f with use_cnt := (f.use_cnt + (USE_CNT_MOD - 1)) % USE_CNT_MOD }

/-! ## The spare queue and `FlowUpdateSpareFlows` (`flow.c` lines 112-147)

The queue operations live in `flow-queue.c`, which is not part of this
excerpt; they are modelled from the spec.  `FlowAlloc` (`flow-util.c`, also
not in the excerpt) either yields a fresh record or fails (`NULL`) on memcap
exhaustion / allocator failure; the successive results of the calls the loop
makes are supplied as `alloc`. -/

/-- Modelled from the spec: `FlowEnqueue` of `flow-queue.c` (not in this
repository's excerpt) pushes at the tail of the FIFO. -/
def FlowEnqueue {α : Type} (q : List α) (f : α) : List α := q ++ [f]

/-- Modelled from the spec: `FlowDequeue` of `flow-queue.c` (not in this
repository's excerpt) pops from the head of the FIFO, `NULL` when empty. -/
def FlowDequeue {α : Type} (q : List α) : Option α × List α :=
  match q with
  | [] => (none, [])
  | x :: xs => (some x, xs)

/-- The `toalloc` loop of `FlowUpdateSpareFlows` (`flow.c` 124-131): allocate
and enqueue `n` flows, the `i`-th allocation result being `alloc i`; return
`0` and stop at the first failed allocation (flows already enqueued stay),
`1` otherwise. -/
def spareAllocLoop {α : Type} (alloc : Nat → Option α) :
    Nat → Nat → List α → Nat × List α
  | 0, _, q => (1, q)
  | n + 1, i, q =>
    match alloc i with
    | none => (0, q)
    | some f => spareAllocLoop alloc n (i + 1) (FlowEnqueue q f)

/-- The `tofree` loop of `FlowUpdateSpareFlows` (`flow.c` 135-143): dequeue
and free `n` flows, returning `1` early when the queue runs dry. -/
def spareFreeLoop {α : Type} : Nat → List α → Nat × List α
  | 0, q => (1, q)
  | n + 1, q =>
    match FlowDequeue q with
    | (none, q') => (1, q')
    | (some _, q') => spareFreeLoop n q'

/-- Direct translation of `FlowUpdateSpareFlows` (`flow.c` 112-147) over the
spare-queue contents `q` and the prealloc watermark: returns the C return
value together with the resulting queue. -/
def FlowUpdateSpareFlows {α : Type} (prealloc : Nat) (q : List α)
    (alloc : Nat → Option α) : Nat × List α :=
  let len := q.length
  if len < prealloc then
    spareAllocLoop alloc (prealloc - len) 0 q
  else if len > prealloc then
    spareFreeLoop (len - prealloc) q
  else
    (1, q)

/-! ## The hash salt of `FlowInitConfig` (`flow.c` lines 331-333) -/

/-- `RAND_MAX` of glibc, the C library the source builds against. -/
def RAND_MAX : Nat := 2147483647

/-- `FLOW_DEFAULT_HASHSIZE` (`flow.c` line 68). -/
def FLOW_DEFAULT_HASHSIZE : Nat := 65536

/-- The hash salt computed by `FlowInitConfig` (`flow.c` 333):
`(int)(FLOW_DEFAULT_HASHSIZE * (rand_r(&seed) / RAND_MAX + 1.0))` where `r`
is the `rand_r` output, an `int` in `[0, RAND_MAX]`.  `rand_r(&seed) /
RAND_MAX` is C integer division (both operands `int`); only then is `1.0`
added, promoting to `double`.  For every `r` the double values involved
(`65536.0` or `131072.0`) are exact integers, so the `Nat` computation below
equals the C result bit for bit. -/
def flowConfigHashRand (r : Nat) : Nat :=
  FLOW_DEFAULT_HASHSIZE * (r / RAND_MAX + 1)

/-! ## The configuration store (`conf.c`)

`conf.c` keeps its values in a `HashTable` (`util-hash.c`, not in this
repository's excerpt) whose comparator `ConfHashComp` is `strcmp` on the
node name; the table is modelled from the spec as a name-keyed finite map,
realised as a list looked up by exact name. -/

/-- One stored configuration node as `ConfSet` creates it: a name, a scalar
value and the `allow_override` flag. -/
structure ConfEntry where
  name : String
  val : String
  allow_override : Bool
  deriving Repr, DecidableEq

/-- The configuration database (the `conf_hash` table's contents). -/
abbrev ConfDb : Type := List ConfEntry

/-- Modelled from the spec: `HashTableLookup` with `ConfHashComp` (`strcmp`
on names) finds the entry stored under `name`. -/
def confHashLookup (db : ConfDb) (name : String) : Option ConfEntry :=
  db.find? (fun e => e.name == name)

/-- Modelled from the spec: `HashTableRemove` removes the entry stored under
`name`. -/
def confHashRemove (db : ConfDb) (name : String) : ConfDb :=
  db.eraseP (fun e => e.name == name)

/-- Direct translation of `ConfSet` (`conf.c` 193-223): an existing entry
with `allow_override == 0` blocks the write (return `0`, table unchanged);
otherwise the old entry is removed and the new one added (return `1`).
Allocation of the new node is modelled as always succeeding. -/
def ConfSet (db : ConfDb) (name val : String) (allow_override : Bool) :
    Nat × ConfDb :=
  match confHashLookup db name with
  | some e =>
    if ¬ e.allow_override then (0, db)
    else (1, ConfEntry.mk name val allow_override :: confHashRemove db name)
  | none => (1, ConfEntry.mk name val allow_override :: db)

/-- Direct translation of `ConfGet` (`conf.c` 235-255): `some v` models
return `1` with `*vptr = v`, `none` models return `0`. -/
def ConfGet (db : ConfDb) (name : String) : Option String :=
  match confHashLookup db name with
  | none => none
  | some e => some e.val

/-! ## `strtoimax` with base 0 (C library, used by `ConfGetInt`)

The C library's `strtoimax(nptr, &endptr, 0)`: skip C-locale whitespace, an
optional sign, then a hexadecimal (`0x`/`0X` prefix), octal (leading `0`) or
decimal digit run; `endptr` points past the last digit consumed, or back at
`nptr` when no digit was consumed; on overflow the result saturates at
`INTMAX_MAX`/`INTMAX_MIN` and `errno` becomes `ERANGE`. -/

def INTMAX_MAX : Int := 9223372036854775807

def INTMAX_MIN : Int := -9223372036854775808

/-- C-locale `isspace`. -/
def isCSpace (c : Char) : Bool :=
  c = ' ' || c = '\t' || c = '\n' || c = '\x0b' || c = '\x0c' || c = '\r'

/-- An octal digit. -/
def isOctDigit (c : Char) : Bool := '0' ≤ c && c ≤ '7'

/-- A hexadecimal digit. -/
def isHexDigitC (c : Char) : Bool :=
  c.isDigit || ('a' ≤ c && c ≤ 'f') || ('A' ≤ c && c ≤ 'F')

/-- Value of a digit character in bases up to 16. -/
def digitVal (c : Char) : Nat :=
  if c.isDigit then c.toNat - 48
  else if 'a' ≤ c && c ≤ 'f' then c.toNat - 87
  else c.toNat - 55

/-- What `strtoimax` reports back: the returned value, the offset of
`endptr` into the string, and whether `errno` was set to `ERANGE`. -/
structure StrtoimaxResult where
  value : Int
  consumed : Nat
  erange : Bool
  deriving Repr, DecidableEq

/-- Saturate at the `intmax_t` bounds, reporting `ERANGE`. -/
def clampIntmax (v : Int) : Int × Bool :=
  if v > INTMAX_MAX then (INTMAX_MAX, true)
  else if v < INTMAX_MIN then (INTMAX_MIN, true)
  else (v, false)

/-- `strtoimax(s, &endptr, 0)` as described above. -/
def strtoimaxBase0 (s : String) : StrtoimaxResult :=
  let cs := s.data
  let afterWs := cs.dropWhile isCSpace
  let wsLen := cs.length - afterWs.length
  let signInfo : Int × List Char :=
    match afterWs with
    | '+' :: t => (1, t)
    | '-' :: t => (-1, t)
    | t => (1, t)
  let sign := signInfo.1
  let afterSign := signInfo.2
  let signLen := afterWs.length - afterSign.length
  let scanned : List Char × Nat × Nat × (Char → Bool) :=
    match afterSign with
    | '0' :: c :: t =>
      if (c = 'x' || c = 'X') && (match t with
          | d :: _ => isHexDigitC d
          | [] => false) then
        (t, 2, 16, isHexDigitC)
      else
        ('0' :: c :: t, 0, 8, isOctDigit)
    | l => (l, 0, 10, Char.isDigit)
  let body := scanned.1
  let prefixLen := scanned.2.1
  let base := scanned.2.2.1
  let isD := scanned.2.2.2
  let digits := body.takeWhile isD
  if digits.isEmpty then
    { value := 0, consumed := 0, erange := false }
  else
    let magnitude : Nat := digits.foldl (fun a c => a * base + digitVal c) 0
    let clamped := clampIntmax (sign * (magnitude : Int))
    { value := clamped.1
      consumed := wsLen + signLen + prefixLen + digits.length
      erange := clamped.2 }

/-- Direct translation of `ConfGetInt` (`conf.c` 267-286) over the modelled
database: `val` is the caller's `*val` before the call; the result pairs the
C return value with `*val` after the call. -/
def ConfGetInt (db : ConfDb) (name : String) (val : Int) : Nat × Int :=
  match ConfGet db name with
  | none => (0, val)
  | some strval =>
    let r := strtoimaxBase0 strval
    if strval.length = 0 ∨ r.consumed ≠ strval.length then (0, val)
    else if r.erange ∧ (r.value = INTMAX_MAX ∨ r.value = INTMAX_MIN) then (0, val)
    else (1, r.value)

/-! ## `flow.emergency-recovery` in `FlowInitConfig` (`flow.c` lines 341-352) -/

/-- `FLOW_DEFAULT_EMERGENCY_RECOVERY` (`flow.c` line 64). -/
def FLOW_DEFAULT_EMERGENCY_RECOVERY : Nat := 30

/-- The `flow.emergency-recovery` handling of `FlowInitConfig` (`flow.c`
341-352): `val` starts at `0`; a successful `ConfGetInt` in range `[1, 100]`
is taken (cast to `uint8_t`), an out-of-range value is logged and replaced
by the default, and a failed lookup/parse keeps the default. -/
def flowConfigEmergencyRecovery (db : ConfDb) : Nat :=
  let r := ConfGetInt db "flow.emergency-recovery" 0
  if r.1 = 1 then
    if r.2 ≤ 100 ∧ 1 ≤ r.2 then r.2.toNat % 256
    else FLOW_DEFAULT_EMERGENCY_RECOVERY
  else FLOW_DEFAULT_EMERGENCY_RECOVERY

/-! ## The configuration tree and `FlowInitFlowProto` (`flow.c` lines 502-740)

`FlowInitFlowProto` reads the `flow-timeouts` subtree through
`ConfNodeLookupChild` / `ConfNodeLookupChildValue`.  Those two helpers live
in the part of `conf.c` not present in this excerpt; the spec describes the
node model: a name, an optional scalar value and an ordered list of
children, with `find_child` returning the first child of a given name. -/

/-- Modelled from the spec: a configuration tree node. -/
inductive ConfNode where
  | mk (name : String) (val : Option String) (children : List ConfNode)
  deriving Repr

/-- Name of a configuration tree node. -/
def ConfNode.name : ConfNode → String
  | .mk n _ _ => n

/-- Scalar value of a configuration tree node, when it has one. -/
def ConfNode.val : ConfNode → Option String
  | .mk _ v _ => v

/-- Children of a configuration tree node, in order. -/
def ConfNode.children : ConfNode → List ConfNode
  | .mk _ _ c => c

/-- Modelled from the spec: `ConfNodeLookupChild` returns the first child
with the given name. -/
def ConfNodeLookupChild (node : ConfNode) (name : String) : Option ConfNode :=
  node.children.find? (fun c => c.name == name)

/-- Modelled from the spec: `ConfNodeLookupChildValue` returns the value of
the first child with the given name (`NULL` when there is no such child or
it has no value). -/
def ConfNodeLookupChildValue (node : ConfNode) (name : String) : Option String :=
  match ConfNodeLookupChild node name with
  | none => none
  | some c => c.val

/-- Modelled from the spec: `ByteExtractStringUint32` (`util-byte.c`, not in
this repository's excerpt) with base 10 parses the whole string as a decimal
`uint32`; `some v` models a positive return with `*res = v`, `none` a
failure. -/
def ByteExtractStringUint32 (s : String) : Option Nat :=
  if s.length ≠ 0 ∧ s.data.all Char.isDigit then
    let v := s.data.foldl (fun a c => a * 10 + (c.toNat - 48)) 0
    if v < 4294967296 then some v else none
  else none

/-- The protocol index of the `flow_proto` table (`flow-private.h`):
`FLOW_PROTO_DEFAULT`, `FLOW_PROTO_TCP`, `FLOW_PROTO_UDP`,
`FLOW_PROTO_ICMP`. -/
inductive FlowProtoId where
  | FLOW_PROTO_DEFAULT
  | FLOW_PROTO_TCP
  | FLOW_PROTO_UDP
  | FLOW_PROTO_ICMP
  deriving Repr, DecidableEq

/-- One entry of the `flow_proto` table: the six 32-bit timeouts.  The two
function pointers (`Freefunc`, `GetProtoState`), set to `NULL` by
`FlowInitFlowProto`, are not modelled; no claim touches them. -/
structure FlowProtoTimeoutRec where
  new_timeout : Nat
  est_timeout : Nat
  closed_timeout : Nat
  emerg_new_timeout : Nat
  emerg_est_timeout : Nat
  emerg_closed_timeout : Nat
  deriving Repr, DecidableEq

/-- Modelled from the spec: the built-in default timeouts of
`flow-private.h` (not in this repository's excerpt), assigned by the first
half of `FlowInitFlowProto` (`flow.c` 504-552).  The claims depend only on
these being the built-in defaults, not on the particular numbers. -/
def flowProtoDefaults : FlowProtoId → FlowProtoTimeoutRec
  | .FLOW_PROTO_DEFAULT =>
    { new_timeout := 30, est_timeout := 300, closed_timeout := 0
      emerg_new_timeout := 10, emerg_est_timeout := 100, emerg_closed_timeout := 0 }
  | .FLOW_PROTO_TCP =>
    { new_timeout := 60, est_timeout := 3600, closed_timeout := 0
      emerg_new_timeout := 10, emerg_est_timeout := 300, emerg_closed_timeout := 0 }
  | .FLOW_PROTO_UDP =>
    { new_timeout := 30, est_timeout := 300, closed_timeout := 0
      emerg_new_timeout := 10, emerg_est_timeout := 100, emerg_closed_timeout := 0 }
  | .FLOW_PROTO_ICMP =>
    { new_timeout := 30, est_timeout := 300, closed_timeout := 0
      emerg_new_timeout := 10, emerg_est_timeout := 100, emerg_closed_timeout := 0 }

/-- The repeated conditional of `FlowInitFlowProto`: `if (key != NULL &&
ByteExtractStringUint32(...) > 0) field = configval;` — keep `cur` unless
the child value exists and parses. -/
def applyTimeoutSlot (node : ConfNode) (key : String) (cur : Nat) : Nat :=
  match ConfNodeLookupChildValue node key with
  | none => cur
  | some s =>
    match ByteExtractStringUint32 s with
    | some v => v
    | none => cur

/-- Direct translation of `FlowInitFlowProto` (`flow.c` 502-740) as a
function of the `flow-timeouts` configuration node (`ConfGetNode
("flow-timeouts")`, `none` when absent): first the built-in defaults, then
per-protocol overrides.  For `default` and `tcp` all six slots are read;
for `udp` and `icmp` the source reads only `new`, `established`,
`emergency-new` and `emergency-established` (`flow.c` 669-736). -/
def FlowInitFlowProto (flow_timeouts : Option ConfNode) :
    FlowProtoId → FlowProtoTimeoutRec :=
  fun idx =>
    let dflt := flowProtoDefaults idx
    match flow_timeouts with
    | none => dflt
    | some ft =>
      match idx with
      | .FLOW_PROTO_DEFAULT =>
        match ConfNodeLookupChild ft "default" with
        | none => dflt
        | some proto =>
          { new_timeout := applyTimeoutSlot proto "new" dflt.new_timeout
            est_timeout := applyTimeoutSlot proto "established" dflt.est_timeout
            closed_timeout := applyTimeoutSlot proto "closed" dflt.closed_timeout
            emerg_new_timeout := applyTimeoutSlot proto "emergency-new" dflt.emerg_new_timeout
            emerg_est_timeout := applyTimeoutSlot proto "emergency-established" dflt.emerg_est_timeout
            emerg_closed_timeout := applyTimeoutSlot proto "emergency-closed" dflt.emerg_closed_timeout }
      | .FLOW_PROTO_TCP =>
        match ConfNodeLookupChild ft "tcp" with
        | none => dflt
        | some proto =>
          { new_timeout := applyTimeoutSlot proto "new" dflt.new_timeout
            est_timeout := applyTimeoutSlot proto "established" dflt.est_timeout
            closed_timeout := applyTimeoutSlot proto "closed" dflt.closed_timeout
            emerg_new_timeout := applyTimeoutSlot proto "emergency-new" dflt.emerg_new_timeout
            emerg_est_timeout := applyTimeoutSlot proto "emergency-established" dflt.emerg_est_timeout
            emerg_closed_timeout := applyTimeoutSlot proto "emergency-closed" dflt.emerg_closed_timeout }
      | .FLOW_PROTO_UDP =>
        match ConfNodeLookupChild ft "udp" with
        | none => dflt
        | some proto =>
          { new_timeout := applyTimeoutSlot proto "new" dflt.new_timeout
            est_timeout := applyTimeoutSlot proto "established" dflt.est_timeout
            closed_timeout := dflt.closed_timeout
            emerg_new_timeout := applyTimeoutSlot proto "emergency-new" dflt.emerg_new_timeout
            emerg_est_timeout := applyTimeoutSlot proto "emergency-established" dflt.emerg_est_timeout
            emerg_closed_timeout := dflt.emerg_closed_timeout }
      | .FLOW_PROTO_ICMP =>
        match ConfNodeLookupChild ft "icmp" with
        | none => dflt
        | some proto =>
          { new_timeout := applyTimeoutSlot proto "new" dflt.new_timeout
            est_timeout := applyTimeoutSlot proto "established" dflt.est_timeout
            closed_timeout := dflt.closed_timeout
            emerg_new_timeout := applyTimeoutSlot proto "emergency-new" dflt.emerg_new_timeout
            emerg_est_timeout := applyTimeoutSlot proto "emergency-established" dflt.emerg_est_timeout
            emerg_closed_timeout := dflt.emerg_closed_timeout }

/-! ## Spec-side definitions used to state the claims -/

/-- Claim C1 as it is literally stated: for TCP/UDP/SCTP differing ports
decide by source port, equal ports fall through to the address comparison;
for ICMP/ICMPv6 *and every other protocol* the source-address comparison
decides (match `TOSERVER`, mismatch `TOCLIENT`). -/
def flowDirectionAsClaimed (f : Flow) (p : Packet) : Nat :=
  if p.proto = IPPROTO_TCP ∨ p.proto = IPPROTO_UDP ∨ p.proto = IPPROTO_SCTP then
    if p.sp ≠ p.dp then
      if f.sp = p.sp then TOSERVER else TOCLIENT
    else
      if f.src = p.src then TOSERVER else TOCLIENT
  else
    if f.src = p.src then TOSERVER else TOCLIENT

/-- Concrete flow for the C1 counterexample: a GRE flow (protocol 47, not
TCP/UDP/SCTP/ICMP/ICMPv6) from address 1 to address 2. -/
def flowC1 : Flow :=
  { proto := 47, src := 1, dst := 2, sp := 1000, dp := 2000
    flags := 0, lastts_sec := 0, use_cnt := 0 }

/-- Concrete packet for the C1 counterexample: the reply direction of
`flowC1` — source address 2, which differs from the flow's source 1. -/
def packetC1 : Packet :=
  { proto := 47, src := 2, dst := 1, sp := 2000, dp := 1000, ts_sec := 0
    is_icmpv4 := false, icmpv4_is_error := false, flowflags := 0, flags := 0 }

/-- Claim C3's per-slot property: when the key
`flow-timeouts.<protoName>.<slot>` is present and its value parses as a
decimal `uint32`, the timeout field holds the configured value; when the
key is absent or unparseable the field holds the built-in default. -/
def TimeoutSlotFollowsConf (ft : Option ConfNode) (protoName slot : String)
    (field dflt : Nat) : Prop :=
  match ft with
  | none => field = dflt
  | some n =>
    match ConfNodeLookupChild n protoName with
    | none => field = dflt
    | some proto =>
      match ConfNodeLookupChildValue proto slot with
      | none => field = dflt
      | some s =>
        match ByteExtractStringUint32 s with
        | some v => field = v
        | none => field = dflt

/-- Concrete `flow-timeouts` tree for the C3 counterexample: it sets
`flow-timeouts.udp.closed = "42"`, a key the claim says is honoured. -/
def ftC3 : ConfNode :=
  ConfNode.mk "flow-timeouts" none
    [ConfNode.mk "udp" none [ConfNode.mk "closed" (some "42") []]]

/-- A sequence of later `ConfSet` calls on the same `name`, applied in
order; formalises "every subsequent ConfSet" of claim C8. -/
def confSetChain (db : ConfDb) (name : String)
    (attempts : List (String × Bool)) : ConfDb :=
  attempts.foldl (fun d a => (ConfSet d name a.1 a.2).2) db

/-! ## Helper lemmas -/

/-- Setting the bits of `y` by or-ing leaves exactly the bits of `y` set in
the result, whatever was there before. -/
theorem natOrAndSelf (x y : Nat) : (x ||| y) &&& y = y := by
  apply Nat.eq_of_testBit_eq
  intro i
  simp [Nat.testBit_or, Nat.testBit_and]
  cases y.testBit i <;> simp

/-- Or-ing a nonzero mask into a bitset makes the masked test nonzero. -/
theorem natOrAndNeZero (x y : Nat) (hy : y ≠ 0) : (x ||| y) &&& y ≠ 0 := by
  rw [natOrAndSelf]; exact hy

/-- The direction of a packet does not depend on the flow's last-seen
timestamp (which `FlowHandlePacket` updates before computing it). -/
theorem flowGetPacketDirection_lastts (f : Flow) (t : Int) (p : Packet) :
    FlowGetPacketDirection { f with lastts_sec := t } p =
      FlowGetPacketDirection f p := rfl

/-! ## Claim C1 — `FlowGetPacketDirection` -/

/-- Claim C1 counterexample: for a protocol that is none of
TCP/UDP/SCTP/ICMP/ICMPv6 (here GRE, 47) the source returns the default
`TOSERVER` without comparing addresses, while the claim's address
comparison — the packet's source 2 differs from the flow's source 1 —
demands `TOCLIENT`. -/
theorem flowGetPacketDirection_claim_cex :
    FlowGetPacketDirection flowC1 packetC1 = TOSERVER ∧
    flowDirectionAsClaimed flowC1 packetC1 = TOCLIENT ∧
    FlowGetPacketDirection flowC1 packetC1 ≠
      flowDirectionAsClaimed flowC1 packetC1 := by
  refine ⟨rfl, rfl, ?_⟩
  decide

/-- Claim C1 as amended: for TCP/UDP/SCTP packets, differing ports decide by
comparing the packet's source port to the flow's source port, equal ports
fall through to the source-address comparison; for ICMP/ICMPv6 the
source-address comparison decides; for every other protocol the result is
the default `TOSERVER` (no address comparison). -/
theorem flowGetPacketDirection_amended (f : Flow) (p : Packet) :
    ((p.proto = IPPROTO_TCP ∨ p.proto = IPPROTO_UDP ∨ p.proto = IPPROTO_SCTP) →
      (p.sp ≠ p.dp →
        FlowGetPacketDirection f p =
          if f.sp = p.sp then TOSERVER else TOCLIENT) ∧
      (p.sp = p.dp →
        FlowGetPacketDirection f p =
          if f.src = p.src then TOSERVER else TOCLIENT)) ∧
    ((p.proto = IPPROTO_ICMP ∨ p.proto = IPPROTO_ICMPV6) →
      FlowGetPacketDirection f p =
        if f.src = p.src then TOSERVER else TOCLIENT) ∧
    (¬(p.proto = IPPROTO_TCP ∨ p.proto = IPPROTO_UDP ∨ p.proto = IPPROTO_SCTP) →
     ¬(p.proto = IPPROTO_ICMP ∨ p.proto = IPPROTO_ICMPV6) →
      FlowGetPacketDirection f p = TOSERVER) := by
  refine ⟨fun hp => ⟨fun hne => ?_, fun heq => ?_⟩, fun hp => ?_, fun h1 h2 => ?_⟩
  · simp only [FlowGetPacketDirection, CMP_PORT, CMP_ADDR, if_pos hp,
      beq_iff_eq, if_pos hne]
  · simp only [FlowGetPacketDirection, CMP_PORT, CMP_ADDR, if_pos hp,
      beq_iff_eq, heq, not_true_eq_false, if_neg (by simp : ¬ False)]
  · have hnot : ¬(p.proto = IPPROTO_TCP ∨ p.proto = IPPROTO_UDP ∨
        p.proto = IPPROTO_SCTP) := by
      rcases hp with h | h <;> rw [h] <;> decide
    simp only [FlowGetPacketDirection, CMP_ADDR, if_neg hnot, if_pos hp,
      beq_iff_eq]
  · simp only [FlowGetPacketDirection, if_neg h1, if_neg h2]

/-! ## Claim C4 — the `hash_rand` computation of `FlowInitConfig` -/

/-- Claim C4: the hash salt is effectively constant.  Because
`rand_r(&seed) / RAND_MAX` is integer division, every RNG output in
`[0, RAND_MAX)` produces the same salt `FLOW_DEFAULT_HASHSIZE`; in
particular the distinct outputs 0 and 1 collide. -/
theorem flowConfigHashRand_constant :
    flowConfigHashRand 0 = 65536 ∧
    flowConfigHashRand 1 = 65536 ∧
    flowConfigHashRand 0 = flowConfigHashRand 1 ∧
    (∀ r, r < RAND_MAX → flowConfigHashRand r = FLOW_DEFAULT_HASHSIZE) := by
  refine ⟨rfl, rfl, rfl, fun r hr => ?_⟩
  unfold flowConfigHashRand
  rw [Nat.div_eq_of_lt hr]
  simp

/-! ## Claim C5 — `FlowHandlePacket` on a failed lookup -/

/-- Claim C5: when the hash lookup yields `NULL`, `FlowHandlePacket` returns
at once with the packet unchanged: no flow attached, `PKT_HAS_FLOW` not
added, no direction or `ESTABLISHED` bits added. -/
theorem flowHandlePacket_null_lookup (p : PacketWithFlow) :
    FlowHandlePacket none p = (none, p) ∧
    (FlowHandlePacket none p).2.flow = p.flow ∧
    (FlowHandlePacket none p).2.pkt.flags = p.pkt.flags ∧
    (FlowHandlePacket none p).2.pkt.flowflags = p.pkt.flowflags :=
  ⟨rfl, rfl, rfl, rfl⟩

/-! ## Claim C10 — `FlowIncrUsecnt` / `FlowDecrUsecnt` -/

/-- Claim C10: both use-count functions are total over the pointer argument:
`NULL` is returned unchanged; a real flow gets exactly one added to
(respectively subtracted from, modulo the 16-bit counter width) its
`use_cnt`, every other field untouched. -/
theorem flowUsecnt_spec :
    FlowIncrUsecnt none = none ∧ FlowDecrUsecnt none = none ∧
    (∀ f : Flow, ∃ g : Flow, FlowIncrUsecnt (some f) = some g ∧
      g.use_cnt = (f.use_cnt + 1) % USE_CNT_MOD ∧
      g.proto = f.proto ∧ g.src = f.src ∧ g.dst = f.dst ∧
      g.sp = f.sp ∧ g.dp = f.dp ∧ g.flags = f.flags ∧
      g.lastts_sec = f.lastts_sec) ∧
    (∀ f : Flow, ∃ g : Flow, FlowDecrUsecnt (some f) = some g ∧
      g.use_cnt = (f.use_cnt + (USE_CNT_MOD - 1)) % USE_CNT_MOD ∧
      g.proto = f.proto ∧ g.src = f.src ∧ g.dst = f.dst ∧
      g.sp = f.sp ∧ g.dp = f.dp ∧ g.flags = f.flags ∧
      g.lastts_sec = f.lastts_sec) := by
  refine ⟨rfl, rfl, fun f => ⟨_, rfl, rfl, rfl, rfl, rfl, rfl, rfl, rfl, rfl⟩,
    fun f => ⟨_, rfl, rfl, rfl, rfl, rfl, rfl, rfl, rfl, rfl⟩⟩

/-! ## Claim C2 — seen flags of `FlowHandlePacket` -/

/-- Claim C2: for an ICMPv4 error-message packet `FlowUpdateSeenFlag`
returns 0 and `FlowHandlePacket` leaves the flow's `FLOW_TO_DST_SEEN` /
`FLOW_TO_SRC_SEEN` bits exactly as they were; for every other packet it
returns 1 and the seen flag matching the packet's direction
(`FLOW_TO_DST_SEEN` for `TOSERVER`, `FLOW_TO_SRC_SEEN` for `TOCLIENT`) is
set afterwards. -/
theorem flowHandlePacket_seen_flags (f : Flow) (p : Packet) :
    (PKT_IS_ICMPV4 p = true ∧ ICMPV4_IS_ERROR_MSG p = true →
      FlowUpdateSeenFlag p = 0 ∧
      (FlowHandlePacketSome f p).1.flags &&& (FLOW_TO_DST_SEEN ||| FLOW_TO_SRC_SEEN)
        = f.flags &&& (FLOW_TO_DST_SEEN ||| FLOW_TO_SRC_SEEN)) ∧
    (¬(PKT_IS_ICMPV4 p = true ∧ ICMPV4_IS_ERROR_MSG p = true) →
      FlowUpdateSeenFlag p = 1 ∧
      (FlowGetPacketDirection f p = TOSERVER →
        (FlowHandlePacketSome f p).1.flags &&& FLOW_TO_DST_SEEN ≠ 0) ∧
      (FlowGetPacketDirection f p ≠ TOSERVER →
        (FlowHandlePacketSome f p).1.flags &&& FLOW_TO_SRC_SEEN ≠ 0)) := by
  by_cases herr : PKT_IS_ICMPV4 p = true ∧ ICMPV4_IS_ERROR_MSG p = true
  · have h0 : FlowUpdateSeenFlag p = 0 := by
      simp [FlowUpdateSeenFlag, herr.1, herr.2]
    refine ⟨fun _ => ⟨h0, ?_⟩, fun hcon => absurd herr hcon⟩
    simp [FlowHandlePacketSome, h0]
  · have h1 : FlowUpdateSeenFlag p = 1 := by
      by_cases hi : PKT_IS_ICMPV4 p = true
      · have he : ¬ ICMPV4_IS_ERROR_MSG p = true := fun he => herr ⟨hi, he⟩
        simp [FlowUpdateSeenFlag, hi, Bool.of_not_eq_true he]
      · simp [FlowUpdateSeenFlag, Bool.of_not_eq_true hi]
    refine ⟨fun hcon => absurd hcon herr, fun _ => ⟨h1, fun hdir => ?_, fun hdir => ?_⟩⟩
    · simp [FlowHandlePacketSome, h1, flowGetPacketDirection_lastts, hdir]
      exact natOrAndNeZero _ _ (by decide)
    · simp [FlowHandlePacketSome, h1, flowGetPacketDirection_lastts, hdir]
      exact natOrAndNeZero _ _ (by decide)

/-! ## Claim C6 — `FlowUpdateSpareFlows` -/

/-- As long as the queue holds at least `n` flows, the free loop dequeues
exactly `n` of them from the head and reports success. -/
theorem spareFreeLoop_drop {α : Type} :
    ∀ (n : Nat) (q : List α), n ≤ q.length → spareFreeLoop n q = (1, q.drop n)
  | 0, q, _ => by simp [spareFreeLoop]
  | n + 1, [], h => by simp at h
  | n + 1, x :: xs, h => by
    simp only [spareFreeLoop, FlowDequeue, List.drop_succ_cons]
    exact spareFreeLoop_drop n xs (by simpa using h)

/-- When every allocation the loop will perform succeeds, the alloc loop
reports success and grows the queue by exactly `n` flows. -/
theorem spareAllocLoop_all_some {α : Type} (alloc : Nat → Option α) :
    ∀ (n i : Nat) (q : List α), (∀ k, k < n → (alloc (i + k)).isSome) →
      (spareAllocLoop alloc n i q).1 = 1 ∧
      (spareAllocLoop alloc n i q).2.length = q.length + n
  | 0, i, q, _ => by simp [spareAllocLoop]
  | n + 1, i, q, h => by
    obtain ⟨a, ha⟩ := Option.isSome_iff_exists.mp (by simpa using h 0 (Nat.succ_pos n))
    have hrest : ∀ k, k < n → (alloc (i + 1 + k)).isSome := fun k hk => by
      have := h (k + 1) (by omega)
      rwa [show i + (k + 1) = i + 1 + k by omega] at this
    have ih := spareAllocLoop_all_some alloc n (i + 1) (FlowEnqueue q a) hrest
    simp only [spareAllocLoop, ha]
    refine ⟨ih.1, ?_⟩
    rw [ih.2]
    simp [FlowEnqueue]
    omega

/-- Whenever the alloc loop reports success it has enqueued exactly `n`
flows. -/
theorem spareAllocLoop_ret1_length {α : Type} (alloc : Nat → Option α) :
    ∀ (n i : Nat) (q : List α), (spareAllocLoop alloc n i q).1 = 1 →
      (spareAllocLoop alloc n i q).2.length = q.length + n
  | 0, i, q, _ => by simp [spareAllocLoop]
  | n + 1, i, q, h => by
    rcases ha : alloc i with _ | a
    · rw [spareAllocLoop, ha] at h
      simp at h
    · rw [spareAllocLoop, ha] at h ⊢
      have ih := spareAllocLoop_ret1_length alloc n (i + 1) (FlowEnqueue q a) h
      rw [ih]
      simp [FlowEnqueue]
      omega

/-- The alloc loop returns 0 exactly at its first failing allocation. -/
theorem spareAllocLoop_first_fail {α : Type} (alloc : Nat → Option α) :
    ∀ (n i j : Nat) (q : List α), j < n →
      (∀ k, k < j → (alloc (i + k)).isSome) → alloc (i + j) = none →
      (spareAllocLoop alloc n i q).1 = 0
  | 0, _, j, _, hj, _, _ => absurd hj (Nat.not_lt_zero j)
  | n + 1, i, 0, q, _, _, hfail => by
    rw [spareAllocLoop, show i + 0 = i from rfl] at *
    rw [hfail]
  | n + 1, i, j + 1, q, hj, hsome, hfail => by
    obtain ⟨a, ha⟩ := Option.isSome_iff_exists.mp (by simpa using hsome 0 (Nat.succ_pos j))
    rw [spareAllocLoop, ha]
    refine spareAllocLoop_first_fail alloc n (i + 1) j (FlowEnqueue q a) (by omega)
      (fun k hk => ?_) ?_
    · have := hsome (k + 1) (by omega)
      rwa [show i + (k + 1) = i + 1 + k by omega] at this
    · rwa [show i + 1 + j = i + (j + 1) by omega]

/-- Claim C6: `FlowUpdateSpareFlows` enforces the prealloc watermark.  At
the watermark the queue is untouched and 1 returned; above it exactly
`len - prealloc` flows are dequeued (from the head) and freed; below it,
when the allocator keeps delivering, exactly `prealloc - len` flows are
allocated and enqueued; a failing fresh allocation makes it return 0; and
every call that returns 1 leaves exactly `prealloc` spare flows. -/
theorem flowUpdateSpareFlows_watermark {α : Type} (prealloc : Nat)
    (q : List α) (alloc : Nat → Option α) :
    (q.length = prealloc → FlowUpdateSpareFlows prealloc q alloc = (1, q)) ∧
    (prealloc < q.length →
      FlowUpdateSpareFlows prealloc q alloc = (1, q.drop (q.length - prealloc)) ∧
      (q.drop (q.length - prealloc)).length = prealloc) ∧
    (q.length < prealloc →
      (∀ k, k < prealloc - q.length → (alloc k).isSome) →
      (FlowUpdateSpareFlows prealloc q alloc).1 = 1 ∧
      (FlowUpdateSpareFlows prealloc q alloc).2.length = prealloc) ∧
    (q.length < prealloc → ∀ j, j < prealloc - q.length →
      (∀ k, k < j → (alloc k).isSome) → alloc j = none →
      (FlowUpdateSpareFlows prealloc q alloc).1 = 0) ∧
    ((FlowUpdateSpareFlows prealloc q alloc).1 = 1 →
      (FlowUpdateSpareFlows prealloc q alloc).2.length = prealloc) := by
  refine ⟨fun heq => ?_, fun hgt => ?_, fun hlt hall => ?_, fun hlt j hj hsome hfail => ?_,
    fun hret => ?_⟩
  · simp [FlowUpdateSpareFlows, heq]
  · have h1 : ¬ q.length < prealloc := by omega
    have hle : q.length - prealloc ≤ q.length := by omega
    constructor
    · simp only [FlowUpdateSpareFlows, if_neg h1, if_pos hgt]
      exact spareFreeLoop_drop _ q hle
    · simp only [List.length_drop]
      omega
  · have hall0 : ∀ k, k < prealloc - q.length → (alloc (0 + k)).isSome := by
      intro k hk
      simpa using hall k hk
    have h := spareAllocLoop_all_some alloc (prealloc - q.length) 0 q hall0
    simp only [FlowUpdateSpareFlows, if_pos hlt]
    exact ⟨h.1, by rw [h.2]; omega⟩
  · have hsome0 : ∀ k, k < j → (alloc (0 + k)).isSome := by
      intro k hk
      simpa using hsome k hk
    have hfail0 : alloc (0 + j) = none := by simpa using hfail
    simp only [FlowUpdateSpareFlows, if_pos hlt]
    exact spareAllocLoop_first_fail alloc (prealloc - q.length) 0 j q hj hsome0 hfail0
  · rcases Nat.lt_trichotomy q.length prealloc with hlt | heq | hgt
    · rw [FlowUpdateSpareFlows, if_pos hlt] at hret ⊢
      rw [spareAllocLoop_ret1_length alloc _ 0 q hret]
      omega
    · simp [FlowUpdateSpareFlows, heq]
    · have h1 : ¬ q.length < prealloc := by omega
      rw [FlowUpdateSpareFlows, if_neg h1, if_pos hgt] at hret ⊢
      rw [spareFreeLoop_drop _ q (by omega)]
      simp only [List.length_drop]
      omega

/-! ## Claim C7 — `flow.emergency-recovery` handling -/

/-- Claim C7: a present `flow.emergency-recovery` value parsing into
`[1, 100]` is adopted; a present value outside that range is rejected in
favour of the built-in default 30; an absent or unparseable key also yields
30. -/
theorem flowConfigEmergencyRecovery_spec (db : ConfDb) :
    (∀ v : Int, ConfGetInt db "flow.emergency-recovery" 0 = (1, v) →
      (1 ≤ v → v ≤ 100 → flowConfigEmergencyRecovery db = v.toNat) ∧
      (¬(1 ≤ v ∧ v ≤ 100) →
        flowConfigEmergencyRecovery db = FLOW_DEFAULT_EMERGENCY_RECOVERY)) ∧
    ((ConfGetInt db "flow.emergency-recovery" 0).1 ≠ 1 →
      flowConfigEmergencyRecovery db = FLOW_DEFAULT_EMERGENCY_RECOVERY) := by
  constructor
  · intro v hv
    constructor
    · intro h1 h100
      have hlt : v.toNat < 256 := by omega
      simp [flowConfigEmergencyRecovery, hv, h1, h100, Nat.mod_eq_of_lt hlt]
    · intro hout
      have : ¬(v ≤ 100 ∧ 1 ≤ v) := fun h => hout ⟨h.2, h.1⟩
      simp [flowConfigEmergencyRecovery, hv, this]
  · intro h0
    simp [flowConfigEmergencyRecovery]
    intro h1
    exact absurd h1 h0

/-! ## Claim C8 — `ConfSet` `allow_override` semantics -/

/-- A successful `ConfSet` leaves the freshly created entry as what a
lookup on the name finds. -/
theorem confHashLookup_after_set (db : ConfDb) (name val : String) (b : Bool)
    (h : (ConfSet db name val b).1 = 1) :
    confHashLookup (ConfSet db name val b).2 name =
      some (ConfEntry.mk name val b) := by
  unfold ConfSet at h ⊢
  rcases hl : confHashLookup db name with _ | e
  · simp [confHashLookup]
  · by_cases hov : e.allow_override = true
    · simp [hov, confHashLookup]
    · rw [hl] at h
      simp [hov] at h

/-- A locked entry (`allow_override == 0`) makes every `ConfSet` on its name
return 0 with the table unchanged. -/
theorem confSet_locked (db : ConfDb) (name : String) (e : ConfEntry)
    (h : confHashLookup db name = some e) (hov : e.allow_override = false) :
    ∀ (v : String) (x : Bool), ConfSet db name v x = (0, db) := by
  intro v x
  unfold ConfSet
  rw [h]
  simp [hov]

/-- An overridable entry makes every `ConfSet` on its name replace it and
return 1. -/
theorem confSet_unlocked (db : ConfDb) (name : String) (e : ConfEntry)
    (h : confHashLookup db name = some e) (hov : e.allow_override = true) :
    ∀ (v : String) (x : Bool),
      ConfSet db name v x =
        (1, ConfEntry.mk name v x :: confHashRemove db name) := by
  intro v x
  unfold ConfSet
  rw [h]
  simp [hov]

/-- `ConfGet` reports the value of the entry the lookup finds. -/
theorem confGet_of_lookup (db : ConfDb) (name : String) (e : ConfEntry)
    (h : confHashLookup db name = some e) : ConfGet db name = some e.val := by
  unfold ConfGet
  rw [h]

/-- Claim C8: after a successful `ConfSet(name, v0, allow_override=0)`,
every later `ConfSet` on that name — also any chain of them — returns 0 and
leaves the table unchanged, so `ConfGet` still yields `v0`; after a
successful `ConfSet(name, v0, allow_override=1)` instead, a later `ConfSet`
returns 1 and `ConfGet` yields the new value. -/
theorem confSet_allow_override_spec (db : ConfDb) (name v0 v1 : String) (x : Bool) :
    ((ConfSet db name v0 false).1 = 1 →
      (ConfSet (ConfSet db name v0 false).2 name v1 x =
        (0, (ConfSet db name v0 false).2)) ∧
      ConfGet (ConfSet db name v0 false).2 name = some v0 ∧
      (∀ attempts : List (String × Bool),
        confSetChain (ConfSet db name v0 false).2 name attempts =
          (ConfSet db name v0 false).2 ∧
        ConfGet (confSetChain (ConfSet db name v0 false).2 name attempts) name =
          some v0)) ∧
    ((ConfSet db name v0 true).1 = 1 →
      (ConfSet (ConfSet db name v0 true).2 name v1 x).1 = 1 ∧
      ConfGet (ConfSet (ConfSet db name v0 true).2 name v1 x).2 name = some v1) := by
  constructor
  · intro h
    have hlook := confHashLookup_after_set db name v0 false h
    have hstep : ∀ (v : String) (y : Bool),
        ConfSet (ConfSet db name v0 false).2 name v y =
          (0, (ConfSet db name v0 false).2) :=
      confSet_locked _ name _ hlook rfl
    have hget : ConfGet (ConfSet db name v0 false).2 name = some v0 :=
      confGet_of_lookup _ name _ hlook
    refine ⟨hstep v1 x, hget, fun attempts => ?_⟩
    have hchain : confSetChain (ConfSet db name v0 false).2 name attempts =
        (ConfSet db name v0 false).2 := by
      induction attempts with
      | nil => rfl
      | cons a rest ih =>
        unfold confSetChain at ih ⊢
        simp only [List.foldl_cons, hstep a.1 a.2]
        exact ih
    exact ⟨hchain, by rw [hchain]; exact hget⟩
  · intro h
    have hlook := confHashLookup_after_set db name v0 true h
    have hstep := confSet_unlocked _ name _ hlook rfl v1 x
    have hset2 : (ConfSet (ConfSet db name v0 true).2 name v1 x).1 = 1 := by
      rw [hstep]
    refine ⟨hset2, ?_⟩
    have hlook2 := confHashLookup_after_set (ConfSet db name v0 true).2 name v1 x hset2
    exact confGet_of_lookup _ name _ hlook2

/-! ## Claim C9 — `ConfGetInt` -/

/-- Claim C9: `ConfGetInt` returns 1 with the parsed integer exactly when
the key exists and its whole value string parses via `strtoimax` with base 0
— nonempty, `endptr` at the end of the string, no `ERANGE` saturation at
`INTMAX_MAX`/`INTMAX_MIN`; in every failure case it returns 0 and leaves the
caller's value untouched. -/
theorem confGetInt_spec (db : ConfDb) (name : String) (prev : Int) :
    ((ConfGetInt db name prev).1 = 1 ↔
      ∃ s, ConfGet db name = some s ∧ s.length ≠ 0 ∧
        (strtoimaxBase0 s).consumed = s.length ∧
        ¬((strtoimaxBase0 s).erange ∧
          ((strtoimaxBase0 s).value = INTMAX_MAX ∨
           (strtoimaxBase0 s).value = INTMAX_MIN))) ∧
    (∀ s, ConfGet db name = some s → (ConfGetInt db name prev).1 = 1 →
      (ConfGetInt db name prev).2 = (strtoimaxBase0 s).value) ∧
    ((ConfGetInt db name prev).1 ≠ 1 → ConfGetInt db name prev = (0, prev)) := by
  rcases hg : ConfGet db name with _ | s
  · refine ⟨?_, fun s hs => absurd hs (by simp), fun _ => ?_⟩
    · constructor
      · intro h
        unfold ConfGetInt at h
        rw [hg] at h
        simp at h
      · rintro ⟨s, hs, -⟩
        exact absurd hs (by simp)
    · unfold ConfGetInt
      rw [hg]
  · have hval : ConfGetInt db name prev =
        if s.length = 0 ∨ (strtoimaxBase0 s).consumed ≠ s.length then (0, prev)
        else if (strtoimaxBase0 s).erange ∧
            ((strtoimaxBase0 s).value = INTMAX_MAX ∨
             (strtoimaxBase0 s).value = INTMAX_MIN) then (0, prev)
        else (1, (strtoimaxBase0 s).value) := by
      unfold ConfGetInt
      rw [hg]
    refine ⟨?_, fun s' hs' h1 => ?_, fun hne => ?_⟩
    · rw [hval]
      constructor
      · intro h
        split_ifs at h with h1 h2
        push_neg at h1
        exact ⟨s, rfl, h1.1, h1.2, h2⟩
      · rintro ⟨s', hs', hlen, hcons, hrange⟩
        injection hs' with hss
        subst hss
        rw [if_neg (by push_neg; exact ⟨hlen, hcons⟩), if_neg hrange]
    · injection hs' with hss
      subst hss
      rw [hval] at h1 ⊢
      split_ifs at h1 ⊢ with ha hb
      rfl
    · rw [hval] at hne ⊢
      split_ifs at hne ⊢ with ha hb
      · rfl
      · rfl
      · simp at hne

/-! ## Claim C3 — `FlowInitFlowProto` timeouts from configuration -/

/-- Claim C3 counterexample: with `flow-timeouts.udp.closed = "42"` present
and parseable, the UDP `closed_timeout` nevertheless keeps the built-in
default — `FlowInitFlowProto` never reads the `closed` (or
`emergency-closed`) key for UDP and ICMP. -/
theorem flowInitFlowProto_claim_cex :
    ConfNodeLookupChildValue
        (ConfNode.mk "udp" none [ConfNode.mk "closed" (some "42") []])
        "closed" = some "42" ∧
    ByteExtractStringUint32 "42" = some 42 ∧
    (FlowInitFlowProto (some ftC3) FlowProtoId.FLOW_PROTO_UDP).closed_timeout =
      (flowProtoDefaults FlowProtoId.FLOW_PROTO_UDP).closed_timeout ∧
    (FlowInitFlowProto (some ftC3) FlowProtoId.FLOW_PROTO_UDP).closed_timeout ≠ 42 ∧
    ¬ TimeoutSlotFollowsConf (some ftC3) "udp" "closed"
        (FlowInitFlowProto (some ftC3) FlowProtoId.FLOW_PROTO_UDP).closed_timeout
        (flowProtoDefaults FlowProtoId.FLOW_PROTO_UDP).closed_timeout := by
  refine ⟨rfl, by decide, rfl, by decide, fun h => ?_⟩
  have h' : (0 : Nat) = 42 := h
  simp at h'

/-- When the protocol child is absent, a field left at its default satisfies
the per-slot property. -/
theorem timeoutSlotFollows_nochild (n : ConfNode) (protoName slot : String)
    (dflt : Nat) (h : ConfNodeLookupChild n protoName = none) :
    TimeoutSlotFollowsConf (some n) protoName slot dflt dflt := by
  simp [TimeoutSlotFollowsConf, h]

/-- When the protocol child exists, a field computed by `applyTimeoutSlot`
satisfies the per-slot property. -/
theorem timeoutSlotFollows_apply (n proto : ConfNode) (protoName slot : String)
    (dflt : Nat) (h : ConfNodeLookupChild n protoName = some proto) :
    TimeoutSlotFollowsConf (some n) protoName slot
      (applyTimeoutSlot proto slot dflt) dflt := by
  simp only [TimeoutSlotFollowsConf, h]
  rcases h2 : ConfNodeLookupChildValue proto slot with _ | s
  · simp [h2, applyTimeoutSlot]
  · rcases h3 : ByteExtractStringUint32 s with _ | v <;>
      simp [h2, h3, applyTimeoutSlot]

/-- Claim C3 as amended: for the `default` and `tcp` protocols all six
timeout slots follow the configuration (a present, parseable key wins,
otherwise the built-in default stays); for `udp` and `icmp` only `new`,
`established`, `emergency-new` and `emergency-established` do, while
`closed` and `emergency-closed` always keep the built-in default. -/
theorem flowInitFlowProto_amended (ft : Option ConfNode) :
    (TimeoutSlotFollowsConf ft "default" "new"
        (FlowInitFlowProto ft FlowProtoId.FLOW_PROTO_DEFAULT).new_timeout
        (flowProtoDefaults FlowProtoId.FLOW_PROTO_DEFAULT).new_timeout ∧
      TimeoutSlotFollowsConf ft "default" "established"
        (FlowInitFlowProto ft FlowProtoId.FLOW_PROTO_DEFAULT).est_timeout
        (flowProtoDefaults FlowProtoId.FLOW_PROTO_DEFAULT).est_timeout ∧
      TimeoutSlotFollowsConf ft "default" "closed"
        (FlowInitFlowProto ft FlowProtoId.FLOW_PROTO_DEFAULT).closed_timeout
        (flowProtoDefaults FlowProtoId.FLOW_PROTO_DEFAULT).closed_timeout ∧
      TimeoutSlotFollowsConf ft "default" "emergency-new"
        (FlowInitFlowProto ft FlowProtoId.FLOW_PROTO_DEFAULT).emerg_new_timeout
        (flowProtoDefaults FlowProtoId.FLOW_PROTO_DEFAULT).emerg_new_timeout ∧
      TimeoutSlotFollowsConf ft "default" "emergency-established"
        (FlowInitFlowProto ft FlowProtoId.FLOW_PROTO_DEFAULT).emerg_est_timeout
        (flowProtoDefaults FlowProtoId.FLOW_PROTO_DEFAULT).emerg_est_timeout ∧
      TimeoutSlotFollowsConf ft "default" "emergency-closed"
        (FlowInitFlowProto ft FlowProtoId.FLOW_PROTO_DEFAULT).emerg_closed_timeout
        (flowProtoDefaults FlowProtoId.FLOW_PROTO_DEFAULT).emerg_closed_timeout) ∧
    (TimeoutSlotFollowsConf ft "tcp" "new"
        (FlowInitFlowProto ft FlowProtoId.FLOW_PROTO_TCP).new_timeout
        (flowProtoDefaults FlowProtoId.FLOW_PROTO_TCP).new_timeout ∧
      TimeoutSlotFollowsConf ft "tcp" "established"
        (FlowInitFlowProto ft FlowProtoId.FLOW_PROTO_TCP).est_timeout
        (flowProtoDefaults FlowProtoId.FLOW_PROTO_TCP).est_timeout ∧
      TimeoutSlotFollowsConf ft "tcp" "closed"
        (FlowInitFlowProto ft FlowProtoId.FLOW_PROTO_TCP).closed_timeout
        (flowProtoDefaults FlowProtoId.FLOW_PROTO_TCP).closed_timeout ∧
      TimeoutSlotFollowsConf ft "tcp" "emergency-new"
        (FlowInitFlowProto ft FlowProtoId.FLOW_PROTO_TCP).emerg_new_timeout
        (flowProtoDefaults FlowProtoId.FLOW_PROTO_TCP).emerg_new_timeout ∧
      TimeoutSlotFollowsConf ft "tcp" "emergency-established"
        (FlowInitFlowProto ft FlowProtoId.FLOW_PROTO_TCP).emerg_est_timeout
        (flowProtoDefaults FlowProtoId.FLOW_PROTO_TCP).emerg_est_timeout ∧
      TimeoutSlotFollowsConf ft "tcp" "emergency-closed"
        (FlowInitFlowProto ft FlowProtoId.FLOW_PROTO_TCP).emerg_closed_timeout
        (flowProtoDefaults FlowProtoId.FLOW_PROTO_TCP).emerg_closed_timeout) ∧
    (TimeoutSlotFollowsConf ft "udp" "new"
        (FlowInitFlowProto ft FlowProtoId.FLOW_PROTO_UDP).new_timeout
        (flowProtoDefaults FlowProtoId.FLOW_PROTO_UDP).new_timeout ∧
      TimeoutSlotFollowsConf ft "udp" "established"
        (FlowInitFlowProto ft FlowProtoId.FLOW_PROTO_UDP).est_timeout
        (flowProtoDefaults FlowProtoId.FLOW_PROTO_UDP).est_timeout ∧
      TimeoutSlotFollowsConf ft "udp" "emergency-new"
        (FlowInitFlowProto ft FlowProtoId.FLOW_PROTO_UDP).emerg_new_timeout
        (flowProtoDefaults FlowProtoId.FLOW_PROTO_UDP).emerg_new_timeout ∧
      TimeoutSlotFollowsConf ft "udp" "emergency-established"
        (FlowInitFlowProto ft FlowProtoId.FLOW_PROTO_UDP).emerg_est_timeout
        (flowProtoDefaults FlowProtoId.FLOW_PROTO_UDP).emerg_est_timeout ∧
      (FlowInitFlowProto ft FlowProtoId.FLOW_PROTO_UDP).closed_timeout =
        (flowProtoDefaults FlowProtoId.FLOW_PROTO_UDP).closed_timeout ∧
      (FlowInitFlowProto ft FlowProtoId.FLOW_PROTO_UDP).emerg_closed_timeout =
        (flowProtoDefaults FlowProtoId.FLOW_PROTO_UDP).emerg_closed_timeout) ∧
    (TimeoutSlotFollowsConf ft "icmp" "new"
        (FlowInitFlowProto ft FlowProtoId.FLOW_PROTO_ICMP).new_timeout
        (flowProtoDefaults FlowProtoId.FLOW_PROTO_ICMP).new_timeout ∧
      TimeoutSlotFollowsConf ft "icmp" "established"
        (FlowInitFlowProto ft FlowProtoId.FLOW_PROTO_ICMP).est_timeout
        (flowProtoDefaults FlowProtoId.FLOW_PROTO_ICMP).est_timeout ∧
      TimeoutSlotFollowsConf ft "icmp" "emergency-new"
        (FlowInitFlowProto ft FlowProtoId.FLOW_PROTO_ICMP).emerg_new_timeout
        (flowProtoDefaults FlowProtoId.FLOW_PROTO_ICMP).emerg_new_timeout ∧
      TimeoutSlotFollowsConf ft "icmp" "emergency-established"
        (FlowInitFlowProto ft FlowProtoId.FLOW_PROTO_ICMP).emerg_est_timeout
        (flowProtoDefaults FlowProtoId.FLOW_PROTO_ICMP).emerg_est_timeout ∧
      (FlowInitFlowProto ft FlowProtoId.FLOW_PROTO_ICMP).closed_timeout =
        (flowProtoDefaults FlowProtoId.FLOW_PROTO_ICMP).closed_timeout ∧
      (FlowInitFlowProto ft FlowProtoId.FLOW_PROTO_ICMP).emerg_closed_timeout =
        (flowProtoDefaults FlowProtoId.FLOW_PROTO_ICMP).emerg_closed_timeout) := by
  rcases ft with _ | n
  · exact ⟨⟨rfl, rfl, rfl, rfl, rfl, rfl⟩, ⟨rfl, rfl, rfl, rfl, rfl, rfl⟩,
      ⟨rfl, rfl, rfl, rfl, rfl, rfl⟩, ⟨rfl, rfl, rfl, rfl, rfl, rfl⟩⟩
  · refine ⟨?_, ?_, ?_, ?_⟩
    · rcases hc : ConfNodeLookupChild n "default" with _ | proto <;>
        simp only [FlowInitFlowProto, hc, flowProtoDefaults] <;>
        refine ⟨?_, ?_, ?_, ?_, ?_, ?_⟩ <;>
        first
        | trivial
        | exact timeoutSlotFollows_nochild n _ _ _ hc
        | exact timeoutSlotFollows_apply n proto _ _ _ hc
    · rcases hc : ConfNodeLookupChild n "tcp" with _ | proto <;>
        simp only [FlowInitFlowProto, hc, flowProtoDefaults] <;>
        refine ⟨?_, ?_, ?_, ?_, ?_, ?_⟩ <;>
        first
        | trivial
        | exact timeoutSlotFollows_nochild n _ _ _ hc
        | exact timeoutSlotFollows_apply n proto _ _ _ hc
    · rcases hc : ConfNodeLookupChild n "udp" with _ | proto <;>
        simp only [FlowInitFlowProto, hc, flowProtoDefaults] <;>
        refine ⟨?_, ?_, ?_, ?_, ?_, ?_⟩ <;>
        first
        | trivial
        | exact timeoutSlotFollows_nochild n _ _ _ hc
        | exact timeoutSlotFollows_apply n proto _ _ _ hc
    · rcases hc : ConfNodeLookupChild n "icmp" with _ | proto <;>
        simp only [FlowInitFlowProto, hc, flowProtoDefaults] <;>
        refine ⟨?_, ?_, ?_, ?_, ?_, ?_⟩ <;>
        first
        | trivial
        | exact timeoutSlotFollows_nochild n _ _ _ hc
        | exact timeoutSlotFollows_apply n proto _ _ _ hc

end Suricata
